import Mathlib

/-!
# Verification of the ESP32 smart-locker RFID core (`src/tools.py`)

Shallow embedding of the RFID tag session and sector protocol implemented in
`src/tools.py`.  Python strings are modelled as their UTF-8 byte sequences
(`List Nat`, one entry per byte); the UTF-8 encode/decode pair is a bijection
between valid strings and their encodings, and `str` / `bytes` conversions in
the source become the identity in this model.  The MFRC522 transport is
modelled as an oracle (`Reader`) giving the outcome of each hardware call;
every transport interaction is also recorded in an event trace so that
ordering properties (teardown, lock exclusion, "before any transport call")
can be stated.  Exceptions become an `Except` error channel: the `RFIDException`
hierarchy is the inductive `RFIDError`, and Python-level errors that the
source can also raise (`ValueError` from `_normalize_key`, `TypeError` from
argument binding, `NameError` from reading an unbound local) are the extra
constructors of `PyError`.
-/

/-- Decidable equality for `Except` results, so that concrete runs of the
model can be checked by `decide`. -/
instance instDecEqExcept {ε α : Type} [DecidableEq ε] [DecidableEq α] :
    DecidableEq (Except ε α) := fun x y =>
  match x, y with
  | .error a, .error b =>
    if h : a = b then .isTrue (by rw [h]) else .isFalse (fun hh => h (by injection hh))
  | .ok a, .ok b =>
    if h : a = b then .isTrue (by rw [h]) else .isFalse (fun hh => h (by injection hh))
  | .error _, .ok _ => .isFalse (fun hh => Except.noConfusion hh)
  | .ok _, .error _ => .isFalse (fun hh => Except.noConfusion hh)

/-- One byte of card data (values 0..255 in the source). -/
abbrev Byte := Nat

/-- The `RFIDException` subclasses defined in `tools.py` (each carries its
Python message string). -/
inductive RFIDError where
  | noCardDetected (msg : String)
  | accessDenied (msg : String)
  | authenticationFailure (msg : String)
  | readWriteFailure (msg : String)
  | unexpectedMetaData (msg : String)
  deriving DecidableEq, Repr

/-- Errors a call into the core can raise: the `RFIDException` family plus the
plain Python errors the source can produce (`ValueError` from
`_normalize_key`, `TypeError` from call-argument binding, `NameError` from
reading a local that was never assigned). -/
inductive PyError where
  | rfid (e : RFIDError)
  | valueError (msg : String)
  | typeError (msg : String)
  | nameError (localName : String)
  deriving DecidableEq, Repr

/-- Transport / actuator events, recorded in program order.  `request`,
`anticoll`, `selectTag`, `auth`, `readB`, `writeB` and `stopCrypto` are the
MFRC522 calls issued by `tools.py`; `relayLow` / `sleepMs` / `relayHigh` are
the relay pulse of `open_cash_register`. -/
inductive Event where
  | request (attempt tryIdx : Nat)
  | anticoll (attempt : Nat)
  | selectTag (uid : List Byte)
  | auth (block : Nat) (key : List Byte)
  | readB (block : Nat)
  | writeB (block : Nat) (data : List Byte)
  | stopCrypto
  | relayLow
  | sleepMs (ms : Nat)
  | relayHigh
  deriving DecidableEq, Repr

/-- `DEFAULT_KEY = [0xFF] * 6` from `tools.py`. -/
def DEFAULT_KEY : List Byte := [0xFF, 0xFF, 0xFF, 0xFF, 0xFF, 0xFF]

/-- `SECTOR_META = 1`. -/
def SECTOR_META : Nat := 1

/-- `SECTOR_USERNAME = 2`. -/
def SECTOR_USERNAME : Nat := 2

/-- `SECTOR_COLLMEX_ID = 3`. -/
def SECTOR_COLLMEX_ID : Nat := 3

/-- `SECTOR_PASSWORD = 4`. -/
def SECTOR_PASSWORD : Nat := 4

/-- `FLAG_CASH_REGISTER = 0b0001`. -/
def FLAG_CASH_REGISTER : Nat := 1

/-- `get_start_block(sector)` from `tools.py`: `sector*4` below 32, else
`128 + (sector-32)*16`.  (Sectors are non-negative here, as in the claim.) -/
def get_start_block (sector : Nat) : Nat :=
  if sector < 32 then sector * 4 else 128 + (sector - 32) * 16

/-- `get_sector_trailer(sector)` from `tools.py`: `sector*4 + 3` below 32,
else `sector*16 + 15` (note: the source uses `sector*16`, not
`128 + (sector-32)*16`). -/
def get_sector_trailer (sector : Nat) : Nat :=
  if sector < 32 then sector * 4 + 3 else sector * 16 + 15

/-- `_normalize_key` from `tools.py` for a non-`None` key: byte/list inputs
are already a `List Byte` in this model, so only the length-6 check remains;
a wrong length raises `ValueError`. -/
def _normalize_key (key : List Byte) : Except PyError (List Byte) :=
  if key.length = 6 then .ok key
  else .error (.valueError "RFID key must be 6 bytes (list[int]/bytes/bytearray).")

/-- Uppercase hex digit, as produced by the format `%02X`. -/
def hexDigitU (n : Nat) : Char :=
  if n < 10 then Char.ofNat (48 + n) else Char.ofNat (55 + n)

/-- `%02X` applied to one byte. -/
def byteHexU (b : Byte) : String :=
  String.mk [hexDigitU (b / 16 % 16), hexDigitU (b % 16)]

/-- `uid2str(uid)` from `tools.py`: `'0x' + ''.join('%02X' % i for i in uid)`
for a truthy uid, `"unknown"` for `None`/empty. -/
def uid2str (uid : List Byte) : String :=
  if uid = [] then "unknown"
  else "0x" ++ (uid.map byteHexU).foldl (fun a s => a ++ s) ""

/-- Oracle for the MFRC522 transport: the outcome of each hardware call the
session protocol can make.  `requestOk a t` is whether the `t`-th
`reader.request` call of attempt `a` returns `OK`; `anticoll a` is the UID
returned by `reader.anticoll()` in attempt `a` (`none` for a non-`OK`
status); `some []` models an `OK` status with a falsy UID.  `authOk`,
`readBlock` and `writeOk` give the per-block outcomes and are keyed by the
block number (and key/data where the hardware sees them). -/
structure Reader where
  requestOk : Nat → Nat → Bool
  anticoll : Nat → Option (List Byte)
  selectOk : Nat → List Byte → Bool
  authOk : Nat → List Byte → List Byte → Bool
  readBlock : Nat → Option (List Byte)
  writeOk : Nat → List Byte → Bool

/-- The `sector_session(is_trailer_block=...)` decorator from `tools.py`:
normalizes the key, authenticates the sector on its start or trailer block,
and only then runs the wrapped operation.  The wrapped operation is a
result/trace pair (pure model of the wrapped function body). -/
def sector_session (r : Reader) (is_trailer_block : Bool) (sector : Nat)
    (uid key : List Byte) (body : Except PyError α × List Event) :
    Except PyError α × List Event :=
  match _normalize_key key with
  | .error e => (.error e, [])
  | .ok key =>
    let auth_block := if is_trailer_block then get_sector_trailer sector else get_start_block sector
    if r.authOk auth_block key uid then
      (body.1, .auth auth_block key :: body.2)
    else
      (.error (.rfid (.authenticationFailure
          ("Authentication failure (sector=" ++ Nat.repr sector ++ ", block=" ++ Nat.repr auth_block ++ ")."))),
        [.auth auth_block key])

/-- The block-write loop of `_write_sector`: for each offset index `i`
(0, 1, 2 standing for byte offsets 0, 16, 32) write the 16-byte slice
`data[16*i : 16*i+16]` to block `start_block + i`; the first failing
`reader.write` aborts with `ReadWriteFailure`. -/
def writeBlocks (r : Reader) (start_block : Nat) (padded : List Byte) :
    List Nat → Except PyError Unit × List Event
  | [] => (.ok (), [])
  | i :: rest =>
    let block_number := start_block + i
    let block_data := (padded.drop (16 * i)).take 16
    if r.writeOk block_number block_data then
      let res := writeBlocks r start_block padded rest
      (res.1, .writeB block_number block_data :: res.2)
    else
      (.error (.rfid (.readWriteFailure ("Failed to write Block " ++ Nat.repr block_number ++ "."))),
        [.writeB block_number block_data])

/-- Body of `_write_sector` (after `sector_session` authentication): reject
data over 48 bytes with `ReadWriteFailureException`, zero-pad to 48 bytes,
then write the three data blocks of the sector. -/
def _write_sector_body (r : Reader) (data : List Byte) (sector : Nat) :
    Except PyError Unit × List Event :=
  let start_block := get_start_block sector
  if data.length > 48 then
    (.error (.rfid (.readWriteFailure "Data exceeds the maximum size of 3 blocks (48 bytes).")), [])
  else
    writeBlocks r start_block (data ++ List.replicate (48 - data.length) 0) [0, 1, 2]

/-- `_write_sector(data, sector=..., uid=..., key=...)` from `tools.py`:
`sector_session()` (start-block authentication) wrapping the write body. -/
def _write_sector (r : Reader) (data : List Byte) (sector : Nat) (uid key : List Byte) :
    Except PyError Unit × List Event :=
  sector_session r false sector uid key (_write_sector_body r data sector)

/-- The block-read loop of `_read_sector`: read blocks
`start_block + 0, 1, 2`, concatenating the data; a failed (or falsy/empty)
`reader.read` aborts with `ReadWriteFailure`. -/
def readBlocks (r : Reader) (start_block : Nat) :
    List Nat → Except PyError (List Byte) × List Event
  | [] => (.ok [], [])
  | i :: rest =>
    let block_number := start_block + i
    match r.readBlock block_number with
    | some block_data =>
      if block_data = [] then
        (.error (.rfid (.readWriteFailure ("Failed to read Block " ++ Nat.repr block_number ++ "."))),
          [.readB block_number])
      else
        match readBlocks r start_block rest with
        | (.ok tailData, tr) => (.ok (block_data ++ tailData), .readB block_number :: tr)
        | (.error e, tr) => (.error e, .readB block_number :: tr)
    | none =>
      (.error (.rfid (.readWriteFailure ("Failed to read Block " ++ Nat.repr block_number ++ "."))),
        [.readB block_number])

/-- `data.rstrip(b'\x00')`: drop trailing zero bytes. -/
def rstripNulls (data : List Byte) : List Byte :=
  (data.reverse.dropWhile (fun b => b = 0)).reverse

/-- Body of `_read_sector` (after `sector_session` authentication): read the
three data blocks, strip trailing null bytes, decode UTF-8 (identity in the
byte-sequence model). -/
def _read_sector_body (r : Reader) (sector : Nat) :
    Except PyError (List Byte) × List Event :=
  match readBlocks r (get_start_block sector) [0, 1, 2] with
  | (.ok data, tr) => (.ok (rstripNulls data), tr)
  | (.error e, tr) => (.error e, tr)

/-- `_read_sector(sector=..., uid=..., key=...)` from `tools.py`:
`sector_session()` (start-block authentication) wrapping the read body. -/
def _read_sector (r : Reader) (sector : Nat) (uid key : List Byte) :
    Except PyError (List Byte) × List Event :=
  sector_session r false sector uid key (_read_sector_body r sector)

/-- An operation wrapped by the `card_session` decorator: given the detected
`uid` and the current candidate `key`, it returns a result and the transport
events it issued (in `tools.py` these are the decorated functions
`test_auth`, `read_data`, `write_data`, `set_key_for_all_sectors`, ...). -/
abbrev CardOp (α : Type) := List Byte → List Byte → Except PyError α × List Event

/-- The first `t < 3` for which `reader.request` returns `OK` in attempt `a`
(the retry loop `for itry in range(3)` of `card_session`). -/
def firstOkTry (r : Reader) (a : Nat) : Option Nat :=
  (List.range 3).find? (fun t => r.requestOk a t)

/-- The `reader.request` events issued by the retry loop of attempt `a` when
`n` calls are made. -/
def requestEvents (a n : Nat) : List Event :=
  (List.range n).map (fun t => .request a t)

/-- Continuation of the attempt body after the UID has been accepted: assign
`uid_str`, select the tag, invoke the wrapped operation. -/
def attemptTail (r : Reader) (op : CardOp α) (a : Nat) (ikey uid : List Byte)
    (tr0 : List Event) : Except PyError α × Option String × List Event :=
  let uid_str := uid2str uid
  if r.selectOk a uid then
    let res := op uid ikey
    (res.1, some uid_str, tr0 ++ [.selectTag uid] ++ res.2)
  else
    (.error (.rfid (.accessDenied ("Failed to select RFID tag with UID: " ++ uid_str))),
      some uid_str, tr0 ++ [.selectTag uid])

/-- The body of one `card_session` attempt (the `try:` block for one
candidate key): presence detection with up to 3 retries, anti-collision,
optional forced-UID comparison, tag selection, then the wrapped operation.
Returns the raised-or-returned result, the value of the local `uid_str` if
this attempt assigned it, and the transport events of the attempt body. -/
def attemptBody (r : Reader) (forced_uid : Option (List Byte)) (op : CardOp α)
    (a : Nat) (ikey : List Byte) :
    Except PyError α × Option String × List Event :=
  match firstOkTry r a with
  | none =>
    (.error (.rfid (.noCardDetected "No RFID card detected.")), none, requestEvents a 3)
  | some t =>
    let tr0 := requestEvents a (t + 1)
    match r.anticoll a with
    | none =>
      (.error (.rfid (.readWriteFailure "Failed to access card UID via anticoll().")), none,
        tr0 ++ [.anticoll a])
    | some uid =>
      if uid = [] then
        (.error (.rfid (.readWriteFailure "Failed to access card UID via anticoll().")), none,
          tr0 ++ [.anticoll a])
      else
        match forced_uid with
        | some fu =>
          if uid ≠ fu then
            (.error (.rfid (.noCardDetected ("Failed to access the given UID " ++ uid2str fu ++ "."))),
              none, tr0 ++ [.anticoll a])
          else
            attemptTail r op a ikey uid (tr0 ++ [.anticoll a])
        | none =>
          attemptTail r op a ikey uid (tr0 ++ [.anticoll a])

/-- How one `card_session` attempt ended: `success` returns from the wrapper,
`caught` means the `except (AuthenticationFailureException,
ReadWriteFailureException)` handler ran (fall through to the next candidate
key), `uncaught` means the raised error propagates out of the wrapper. -/
inductive AttemptExit (α : Type) where
  | success (v : α)
  | caught
  | uncaught (e : PyError)
  deriving DecidableEq

/-- Whether the `except` clause of `card_session` catches this error
(`AuthenticationFailureException` or `ReadWriteFailureException`). -/
def caughtByCardSession : PyError → Bool
  | .rfid (.authenticationFailure _) => true
  | .rfid (.readWriteFailure _) => true
  | _ => false

/-- One full `card_session` attempt: the `try` body, the `except` handler
(whose f-string reads the local `uid_str` and therefore raises `NameError`
when no attempt has assigned it yet), and the `finally: reader.stop_crypto1()`
teardown, which appends `stopCrypto` on every exit path.  `us` is the value
of `uid_str` before the attempt; the returned `Option String` is its value
after. -/
def attempt (r : Reader) (forced_uid : Option (List Byte)) (op : CardOp α)
    (a : Nat) (ikey : List Byte) (us : Option String) :
    AttemptExit α × Option String × List Event :=
  match attemptBody r forced_uid op a ikey with
  | (res, us1, tr) =>
    let us2 := us1.orElse (fun _ => us)
    let tr2 := tr ++ [.stopCrypto]
    match res with
    | .ok v => (.success v, us2, tr2)
    | .error e =>
      if caughtByCardSession e then
        match us2 with
        | none => (.uncaught (.nameError "uid_str"), us2, tr2)
        | some _ => (.caught, us2, tr2)
      else
        (.uncaught e, us2, tr2)

/-- The candidate-key loop of `card_session`: run attempts in order; a caught
failure falls through to the next key; when all keys are exhausted the
wrapper raises `AuthenticationFailureException` naming `uid_str` (reading
`uid_str` raises `NameError` when it was never assigned). -/
def sessionLoop (r : Reader) (forced_uid : Option (List Byte)) (op : CardOp α) :
    List (Nat × List Byte) → Option String → Except PyError α × List Event
  | [], us =>
    match us with
    | some s =>
      (.error (.rfid (.authenticationFailure
          ("Cannot access RFID card " ++ s ++ " with provided/known keys."))), [])
    | none => (.error (.nameError "uid_str"), [])
  | (a, ikey) :: rest, us =>
    match attempt r forced_uid op a ikey us with
    | (.success v, _, tr) => (.ok v, tr)
    | (.caught, us2, tr) =>
      let res := sessionLoop r forced_uid op rest us2
      (res.1, tr ++ res.2)
    | (.uncaught e, _, tr) => (.error e, tr)

/-- Key-candidate selection of `card_session`: `[forced_key]` when a key is
forced, otherwise `[DEFAULT_KEY, CUSTOM_KEY]` in that order, each normalized
by `_normalize_key`. -/
def key_candidates (custom_key : List Byte) (forced_key : Option (List Byte)) :
    Except PyError (List (List Byte)) :=
  match forced_key with
  | some k =>
    match _normalize_key k with
    | .ok k2 => .ok [k2]
    | .error e => .error e
  | none =>
    match _normalize_key DEFAULT_KEY with
    | .error e => .error e
    | .ok d =>
      match _normalize_key custom_key with
      | .error e => .error e
      | .ok c => .ok [d, c]

/-- The `card_session` decorator of `tools.py` (one invocation of the wrapped
function): pops the forced `uid`/`key` kwargs, acquires the reader lock
(serialisation itself is modelled separately, see `CStep`), computes the key
candidates, and runs the attempt loop with the local `uid_str` initially
unassigned. -/
def card_session (r : Reader) (custom_key : List Byte)
    (forced_uid : Option (List Byte)) (forced_key : Option (List Byte))
    (op : CardOp α) : Except PyError α × List Event :=
  match key_candidates custom_key forced_key with
  | .error e => (.error e, [])
  | .ok keys => sessionLoop r forced_uid op keys.enum none

/-- Split a byte string at the first occurrence of `sep` (Python
`s.split(sep, 1)` when `sep in s`); `none` when the separator is absent. -/
def splitSep (sep : Byte) : List Byte → Option (List Byte × List Byte)
  | [] => none
  | b :: rest =>
    if b = sep then some ([], rest)
    else
      match splitSep sep rest with
      | some (pre, suf) => some (b :: pre, suf)
      | none => none

/-- Python `s.isdigit()` for the ASCII strings stored on the card: non-empty
and every byte a decimal digit. -/
def isdigitBytes (l : List Byte) : Bool :=
  !l.isEmpty && l.all (fun b => 48 ≤ b && b ≤ 57)

/-- Python `int(s)` on an all-decimal-digit string. -/
def parseDecimal (l : List Byte) : Nat :=
  l.foldl (fun acc b => acc * 10 + (b - 48)) 0

/-- The metadata check shared by `check_valid_meta_format` and `read_data`
in `tools.py` (the configured `meta_prefix` is `cfg`): the sector must split
as `prefix + "_" + flags` at the first `'_'` (byte 95), the prefix must equal
the configured value, and the flags suffix must be all decimal digits. -/
def check_valid_meta_format_pure (cfg m : List Byte) : Bool :=
  match splitSep 95 m with
  | none => false
  | some (pre, suf) => pre = cfg && isdigitBytes suf

/-- The dictionary returned by `read_data` (the Python key `meta_prefix` is
field `meta_pfx` here). -/
structure CardRecord where
  uid : List Byte
  username : List Byte
  collmex_id : List Byte
  password : List Byte
  flags : Nat
  meta_pfx : List Byte
  deriving DecidableEq, Repr

/-- Body of `read_data` (after `card_session` supplies `uid` and `key`),
with `cfg` the configured `meta_prefix`: read the metadata sector, validate
`"<prefix>_<digits>"` raising `UnexpectedMetaDataException` on each failing
check, then read the username / collmex-id / password sectors and compose
the record.  (The exception message texts are abbreviated; the source
interpolates the offending values into them.) -/
def read_data_body (r : Reader) (cfg : List Byte) (uid key : List Byte) :
    Except PyError CardRecord × List Event :=
  match _read_sector r SECTOR_META uid key with
  | (.error e, tr) => (.error e, tr)
  | (.ok meta_data, tr0) =>
    match splitSep 95 meta_data with
    | none =>
      (.error (.rfid (.unexpectedMetaData "The meta data sector did not match the expected format!")), tr0)
    | some (meta_pfx, flags_str) =>
      if meta_pfx ≠ cfg then
        (.error (.rfid (.unexpectedMetaData "The prefix in the meta data sector did not match the expected prefix.")), tr0)
      else if ¬ isdigitBytes flags_str then
        (.error (.rfid (.unexpectedMetaData "The suffix in the meta data sector is not a digit.")), tr0)
      else
        match _read_sector r SECTOR_USERNAME uid key with
        | (.error e, tr1) => (.error e, tr0 ++ tr1)
        | (.ok username, tr1) =>
          match _read_sector r SECTOR_COLLMEX_ID uid key with
          | (.error e, tr2) => (.error e, tr0 ++ tr1 ++ tr2)
          | (.ok collmex_id, tr2) =>
            match _read_sector r SECTOR_PASSWORD uid key with
            | (.error e, tr3) => (.error e, tr0 ++ tr1 ++ tr2 ++ tr3)
            | (.ok password, tr3) =>
              (.ok ⟨uid, username, collmex_id, password, parseDecimal flags_str, meta_pfx⟩,
                tr0 ++ tr1 ++ tr2 ++ tr3)

/-- Body of `_set_sector_key` (after `sector_session(is_trailer_block=True)`
authentication): normalize the new key, build the 16-byte trailer
`new_key + [0xFF, 0x07, 0x80, 0x69] + new_key`, and write it to the
sector trailer block. -/
def _set_sector_key_body (r : Reader) (new_key : List Byte) (sector : Nat) :
    Except PyError Unit × List Event :=
  match _normalize_key new_key with
  | .error e => (.error e, [])
  | .ok nk =>
    let trailer_block := get_sector_trailer sector
    let trailer := nk ++ [0xFF, 0x07, 0x80, 0x69] ++ nk
    if r.writeOk trailer_block trailer then
      (.ok (), [.writeB trailer_block trailer])
    else
      (.error (.rfid (.readWriteFailure ("Failed to update the key for sector " ++ Nat.repr sector ++ "."))),
        [.writeB trailer_block trailer])

/-- `_set_sector_key(new_key, sector=..., uid=..., key=...)` from `tools.py`:
`sector_session(is_trailer_block=True)` — authentication happens on the
sector trailer block with the *old* key — wrapping the trailer write. -/
def _set_sector_key (r : Reader) (new_key : List Byte) (sector : Nat) (uid key : List Byte) :
    Except PyError Unit × List Event :=
  sector_session r true sector uid key (_set_sector_key_body r new_key sector)

/-- Sequencing of independent per-sector operations (`for isector in (...)`):
the first failure aborts the remaining iterations. -/
def sectorSeq (f : Nat → Except PyError Unit × List Event) :
    List Nat → Except PyError Unit × List Event
  | [] => (.ok (), [])
  | s :: rest =>
    match f s with
    | (.ok _, tr) =>
      let res := sectorSeq f rest
      (res.1, tr ++ res.2)
    | (.error e, tr) => (.error e, tr)

/-- Body of `set_key_for_all_sectors` (after `card_session` supplies `uid`
and `key`): apply `_set_sector_key` to the metadata, username, collmex-id and
password sectors, in that order. -/
def set_key_for_all_sectors_body (r : Reader) (new_key uid key : List Byte) :
    Except PyError Unit × List Event :=
  sectorSeq (fun s => _set_sector_key r new_key s uid key)
    [SECTOR_META, SECTOR_USERNAME, SECTOR_COLLMEX_ID, SECTOR_PASSWORD]

/-- Configuration values read from `config.ini` at startup: the metadata
prefix string and the CUSTOM key. -/
structure Config where
  meta_pfx : List Byte
  custom_key : List Byte

/-- Python call-argument binding check: the first parameter among the first
`nPos` (filled positionally) that is also passed as a keyword — such a call
raises `TypeError: got multiple values for argument ...`. -/
def bindDuplicate (params : List String) (nPos : Nat) (kwNames : List String) : Option String :=
  (params.take nPos).find? (fun p => kwNames.contains p)

/-- The call `func(*args, uid=uid, key=ikey, **kwargs)` that `card_session`
makes into the wrapped `read_data(uid=None, key=None)`: with `nPosArgs`
leftover positional arguments the binding collides with the `uid`/`key`
keywords and raises `TypeError`; otherwise the `read_data` body runs. -/
def read_data_invoke (r : Reader) (cf : Config) (nPosArgs : Nat) (uid key : List Byte) :
    Except PyError CardRecord × List Event :=
  match bindDuplicate ["uid", "key"] nPosArgs ["uid", "key"] with
  | some p => (.error (.typeError ("read_data() got multiple values for argument " ++ p)), [])
  | none => read_data_body r cf.meta_pfx uid key

/-- One invocation of the decorated `read_data` with positional arguments
`posArgs` and optional `uid=` / `key=` keyword arguments: the wrapper pops
only the *keyword* arguments as forced uid/key and forwards the positional
arguments into the wrapped function. -/
def read_data_call (r : Reader) (cf : Config) (posArgs : List (List Byte))
    (kw_uid kw_key : Option (List Byte)) : Except PyError CardRecord × List Event :=
  card_session r cf.custom_key kw_uid kw_key
    (fun uid key => read_data_invoke r cf posArgs.length uid key)

/-- Relay actuation of `open_cash_register`: drive the pin low, sleep 300 ms,
drive it high. -/
def open_cash_register_trace : List Event := [.relayLow, .sleepMs 300, .relayHigh]

/-- Result of one iteration of the `_rfid_reading` polling loop. -/
inductive PollOutcome where
  | relayPulsed
  | noRelay
  | silent
  | logged
  | crashed (e : PyError)
  deriving DecidableEq, Repr

/-- One iteration of `_rfid_reading` from `tools.py`: evaluate
`read_data(DEFAULT_KEY)` — note the key is passed *positionally* — then pulse
the relay when the cash-register bit of `flags` is set, suppress
`NoCardDetectedException`, log any other `RFIDException`; any non-RFID error
escapes the loop (`crashed`). -/
def _rfid_reading_iter (r : Reader) (cf : Config) : PollOutcome × List Event :=
  let res := read_data_call r cf [DEFAULT_KEY] none none
  match res.1 with
  | .ok rec =>
    if rec.flags &&& FLAG_CASH_REGISTER ≠ 0 then (.relayPulsed, res.2 ++ open_cash_register_trace)
    else (.noRelay, res.2)
  | .error (.rfid (.noCardDetected _)) => (.silent, res.2)
  | .error (.rfid _) => (.logged, res.2)
  | .error e => (.crashed e, res.2)

/-- Replay the `writeB` events of a trace onto a block store (later writes to
the same block win, as on the card EEPROM). -/
def applyWriteEvents (store : Nat → List Byte) : List Event → (Nat → List Byte)
  | [] => store
  | .writeB bn bd :: rest => applyWriteEvents (fun n => if n = bn then bd else store n) rest
  | _ :: rest => applyWriteEvents store rest

/-- A blank card: every block reads as 16 zero bytes. -/
def zeroStore : Nat → List Byte := fun _ => List.replicate 16 0

/-- A transport where every hardware call succeeds and block reads are served
from `store`. -/
def allOkReader (store : Nat → List Byte) : Reader where
  requestOk := fun _ _ => true
  anticoll := fun _ => none
  selectOk := fun _ _ => true
  authOk := fun _ _ _ => true
  readBlock := fun n => some (store n)
  writeOk := fun _ _ => true

/-- Write `data` to a sector with `_write_sector`, apply the resulting block
writes to a blank card, and read the sector back with `_read_sector`: the
write-then-read round trip of the spec. -/
def write_then_read (data : List Byte) (sector : Nat) (uid key : List Byte) :
    Except PyError (List Byte) :=
  let w := _write_sector (allOkReader zeroStore) data sector uid key
  match w.1 with
  | .error e => .error e
  | .ok _ => (_read_sector (allOkReader (applyWriteEvents zeroStore w.2)) sector uid key).1

/-- Per-attempt traces of the candidate-key loop: one entry per attempt that
was started, in order (mirrors `sessionLoop`). -/
def sessionAttemptTraces (r : Reader) (forced_uid : Option (List Byte)) (op : CardOp α) :
    List (Nat × List Byte) → Option String → List (List Event)
  | [], _ => []
  | (a, ikey) :: rest, us =>
    match attempt r forced_uid op a ikey us with
    | (.success _, _, tr) => [tr]
    | (.caught, us2, tr) => tr :: sessionAttemptTraces r forced_uid op rest us2
    | (.uncaught _, _, tr) => [tr]

/-- Per-attempt traces of one `card_session` invocation. -/
def card_session_attempt_traces (r : Reader) (custom_key : List Byte)
    (forced_uid : Option (List Byte)) (forced_key : Option (List Byte))
    (op : CardOp α) : List (List Event) :=
  match key_candidates custom_key forced_key with
  | .error _ => []
  | .ok keys => sessionAttemptTraces r forced_uid op keys.enum none

/-- Progress of one task through its `async with reader_lock:` session: not
yet holding the lock (`start`), holding it with `emitted` transport calls
made and `pending` still to make (`running`), or released (`closed`). -/
inductive TPhase where
  | start (pending : List Event)
  | running (emitted pending : List Event)
  | closed (emitted : List Event)
  deriving DecidableEq, Repr

/-- Joint state of two concurrent tasks (the poller and an administrative
handler, say) that each run one lock-guarded card session: the phase of task
A (= `false`) and task B (= `true`), the current lock owner, and the global
transport-call trace tagged with the issuing task. -/
structure CState where
  phA : TPhase
  phB : TPhase
  owner : Option Bool
  trace : List (Bool × Event)
  deriving DecidableEq, Repr

/-- Cooperative-scheduler step relation.  `asyncio.Lock.acquire` suspends
until the lock is free (`owner = none`); the transport calls inside the
session body are blocking hardware round-trips issued while the lock is
held; `release` happens on every exit of the `async with` block. -/
inductive CStep : CState → CState → Prop where
  | acquireA (p : List Event) (s : CState) :
      s.phA = .start p → s.owner = none →
      CStep s { s with phA := .running [] p, owner := some false }
  | emitA (em : List Event) (e : Event) (p : List Event) (s : CState) :
      s.phA = .running em (e :: p) →
      CStep s { s with phA := .running (em ++ [e]) p, trace := s.trace ++ [(false, e)] }
  | releaseA (em : List Event) (s : CState) :
      s.phA = .running em [] →
      CStep s { s with phA := .closed em, owner := none }
  | acquireB (p : List Event) (s : CState) :
      s.phB = .start p → s.owner = none →
      CStep s { s with phB := .running [] p, owner := some true }
  | emitB (em : List Event) (e : Event) (p : List Event) (s : CState) :
      s.phB = .running em (e :: p) →
      CStep s { s with phB := .running (em ++ [e]) p, trace := s.trace ++ [(true, e)] }
  | releaseB (em : List Event) (s : CState) :
      s.phB = .running em [] →
      CStep s { s with phB := .closed em, owner := none }

/-- Initial state: both tasks pending, the lock free, nothing emitted. -/
def initState (trA trB : List Event) : CState :=
  { phA := .start trA, phB := .start trB, owner := none, trace := [] }

/-- Transport events emitted so far by a task. -/
def emittedOf : TPhase → List Event
  | .start _ => []
  | .running em _ => em
  | .closed em => em

/-- A task phase is consistent with its session trace `tr`. -/
def phConsistent (tr : List Event) : TPhase → Prop
  | .start p => p = tr
  | .running em p => em ++ p = tr
  | .closed em => em = tr

/-- The task currently holds the lock (is inside its `async with` block). -/
def insideP : TPhase → Prop
  | .running _ _ => True
  | _ => False

/-- Tag a task's events with its identity. -/
def tagged (t : Bool) (es : List Event) : List (Bool × Event) :=
  es.map (fun e => (t, e))

/-- Inductive invariant of the two-task lock machine: phases are consistent
with the session traces, the lock owner is exactly the task inside its
critical section, and the global trace is one task's emitted events followed
by the other's, where a task that is still inside and already emitting
forces the later-ordered task to have emitted nothing. -/
def LockInv (trA trB : List Event) (s : CState) : Prop :=
  phConsistent trA s.phA ∧ phConsistent trB s.phB ∧
  (s.owner = some false ↔ insideP s.phA) ∧
  (s.owner = some true ↔ insideP s.phB) ∧
  ((s.trace = tagged false (emittedOf s.phA) ++ tagged true (emittedOf s.phB) ∧
      (insideP s.phA → emittedOf s.phB = [])) ∨
   (s.trace = tagged true (emittedOf s.phB) ++ tagged false (emittedOf s.phA) ∧
      (insideP s.phB → emittedOf s.phA = [])))

/-- The keys of the `auth` transport calls of a trace, in order: which key
candidates were actually tried against the card. -/
def authKeysOf (tr : List Event) : List (List Byte) :=
  tr.filterMap (fun e => match e with | .auth _ k => some k | _ => none)

/-- Whether a session result is a `ReadWriteFailureException`. -/
def isReadWriteFailureResult : Except PyError α → Bool
  | .error (.rfid (.readWriteFailure _)) => true
  | _ => false

/-- Whether a session result is any `RFIDException`-family error. -/
def isRFIDErrorResult : Except PyError α → Bool
  | .error (.rfid _) => true
  | _ => false

/-- A card that is present and selectable but whose anti-collision step never
returns a UID. -/
def c6Reader : Reader where
  requestOk := fun _ _ => true
  anticoll := fun _ => none
  selectOk := fun _ _ => false
  authOk := fun _ _ _ => false
  readBlock := fun _ => none
  writeOk := fun _ _ => false

/-- A present, selectable card that authenticates a sector only when the
offered key equals `custom` (its data blocks all read as sixteen `0x01`
bytes). -/
def c1ReaderOnlyCustom (uid custom : List Byte) : Reader where
  requestOk := fun _ _ => true
  anticoll := fun _ => some uid
  selectOk := fun _ _ => true
  authOk := fun _ k _ => decide (k = custom)
  readBlock := fun _ => some (List.replicate 16 1)
  writeOk := fun _ _ => false

/-- A present, selectable card that authenticates against no key at all. -/
def c1ReaderNoKey (uid : List Byte) : Reader where
  requestOk := fun _ _ => true
  anticoll := fun _ => some uid
  selectOk := fun _ _ => true
  authOk := fun _ _ _ => false
  readBlock := fun _ => none
  writeOk := fun _ _ => false

/-- A present, selectable card accepting every key, every data block reading
as sixteen `0x01` bytes. -/
def presentReader (uid : List Byte) : Reader where
  requestOk := fun _ _ => true
  anticoll := fun _ => some uid
  selectOk := fun _ _ => true
  authOk := fun _ _ _ => true
  readBlock := fun _ => some (List.replicate 16 1)
  writeOk := fun _ _ => false

/-- No card in range: every `reader.request` call fails. -/
def absentReader : Reader where
  requestOk := fun _ _ => false
  anticoll := fun _ => none
  selectOk := fun _ _ => false
  authOk := fun _ _ _ => false
  readBlock := fun _ => none
  writeOk := fun _ _ => false

/-- Block store of a provisioned card whose metadata sector holds the bytes
of `"p_1"` (null-padded) and whose other sectors are blank. -/
def c4Store : Nat → List Byte := fun n =>
  if n = 4 then [112, 95, 49] ++ List.replicate 13 0 else List.replicate 16 0

/-- Transport over the `c4Store` card with all hardware calls succeeding. -/
def c4Reader : Reader := allOkReader c4Store

/-- A task phase that has released the lock. -/
def finishedP : TPhase → Prop
  | .closed _ => True
  | _ => False

/-- Final state of the concrete two-task run used to witness the mutual
exclusion theorem (both sessions ran with empty transport traces). -/
def c10FinalState : CState :=
  { phA := .closed [], phB := .closed [], owner := none, trace := [] }

/-! ## General helper lemmas -/

/-- Evaluation of `sector_session` when the key is well-formed and the
sector authentication succeeds: the wrapped body runs after the `auth`
transport call. -/
theorem sector_session_auth_ok (r : Reader) (itb : Bool) (sector : Nat)
    (uid key : List Byte) (body : Except PyError α × List Event)
    (hk : key.length = 6)
    (hauth : r.authOk (if itb then get_sector_trailer sector else get_start_block sector) key uid = true) :
    sector_session r itb sector uid key body =
      (body.1, .auth (if itb then get_sector_trailer sector else get_start_block sector) key :: body.2) := by
  simp only [sector_session, _normalize_key, hk, if_pos, if_true, hauth]

/-- Evaluation of `sector_session` when the key is well-formed and the
sector authentication fails: `AuthenticationFailureException` after the
`auth` transport call, and the body never runs. -/
theorem sector_session_auth_fail (r : Reader) (itb : Bool) (sector : Nat)
    (uid key : List Byte) (body : Except PyError α × List Event)
    (hk : key.length = 6)
    (hauth : r.authOk (if itb then get_sector_trailer sector else get_start_block sector) key uid = false) :
    sector_session r itb sector uid key body =
      (.error (.rfid (.authenticationFailure
          ("Authentication failure (sector=" ++ Nat.repr sector ++ ", block="
            ++ Nat.repr (if itb then get_sector_trailer sector else get_start_block sector) ++ ")."))),
        [.auth (if itb then get_sector_trailer sector else get_start_block sector) key]) := by
  simp only [sector_session, _normalize_key, hk, if_pos, hauth, Bool.false_eq_true, if_false]

/-! ## Claim C2 — block/sector addressing -/

/-- C2: for sectors 0–31 the code computes `start = 4s`, `trailer = 4s+3` as
claimed, and `get_start_block` also matches the claim on sectors 32–39; but
for every sector in [32,39] `get_sector_trailer` disagrees with the claimed
`startBlock(s) + 15`: at sector 32 the code returns block 527 while the
claimed value is 143. -/
theorem c2_trailer_divergence :
    (∀ s, s < 32 → get_start_block s = 4 * s ∧ get_sector_trailer s = 4 * s + 3) ∧
    (∀ s, 32 ≤ s → s ≤ 39 → get_start_block s = 128 + 16 * (s - 32)) ∧
    (∀ s, 32 ≤ s → s ≤ 39 → get_sector_trailer s ≠ get_start_block s + 15) ∧
    get_sector_trailer 32 = 527 ∧ get_start_block 32 + 15 = 143 := by
  refine ⟨?_, ?_, ?_, by decide, by decide⟩
  · intro s hs
    unfold get_start_block get_sector_trailer
    rw [if_pos hs, if_pos hs]
    omega
  · intro s h1 _
    unfold get_start_block
    rw [if_neg (by omega)]
    omega
  · intro s h1 _
    unfold get_start_block get_sector_trailer
    rw [if_neg (by omega), if_neg (by omega)]
    omega

/-- Witness for `c2_trailer_divergence` at sectors 5 and 32. -/
theorem c2_trailer_divergence_witness :
    (get_start_block 5 = 4 * 5 ∧ get_sector_trailer 5 = 4 * 5 + 3) ∧
    get_sector_trailer 32 ≠ get_start_block 32 + 15 :=
  ⟨c2_trailer_divergence.1 5 (by decide),
   c2_trailer_divergence.2.2.1 32 (by decide) (by decide)⟩

/-! ## Claim C3 — 48-byte payload bound -/

/-- C3 counterexample: writing a 49-byte payload does fail, but the raised
error is `ReadWriteFailureException` (the source defines no separate
`PayloadTooLarge` kind), and the failure is not "before any transport call":
the trace already contains the `sector_session` authentication round-trip at
the moment the size check rejects the payload. -/
theorem c3_oversize_counterexample :
    (_write_sector (allOkReader zeroStore) (List.replicate 49 65) SECTOR_USERNAME
        [1, 2, 3, 4] DEFAULT_KEY).1 =
      .error (.rfid (.readWriteFailure "Data exceeds the maximum size of 3 blocks (48 bytes).")) ∧
    (_write_sector (allOkReader zeroStore) (List.replicate 49 65) SECTOR_USERNAME
        [1, 2, 3, 4] DEFAULT_KEY).2 = [.auth 8 DEFAULT_KEY] ∧
    (_write_sector (allOkReader zeroStore) (List.replicate 49 65) SECTOR_USERNAME
        [1, 2, 3, 4] DEFAULT_KEY).2 ≠ [] :=
  ⟨by decide, by decide, by decide⟩

/-- C3 as amended: a payload of at most 48 bytes is accepted (the write
succeeds), while a payload over 48 bytes fails with
`ReadWriteFailureException` raised by the local size check — after the
sector-authentication transport call, but before any block write is
issued. -/
theorem c3_oversize_amended (r : Reader) (data uid key : List Byte) (sector : Nat)
    (hk : key.length = 6)
    (hauth : r.authOk (get_start_block sector) key uid = true)
    (hw : ∀ bn bd, r.writeOk bn bd = true) :
    (data.length ≤ 48 → (_write_sector r data sector uid key).1 = .ok ()) ∧
    (48 < data.length →
      _write_sector r data sector uid key =
        (.error (.rfid (.readWriteFailure "Data exceeds the maximum size of 3 blocks (48 bytes).")),
          [.auth (get_start_block sector) key])) := by
  have hss := sector_session_auth_ok r false sector uid key
    (_write_sector_body r data sector) hk (by simpa using hauth)
  simp only [Bool.false_eq_true, if_false] at hss
  constructor
  · intro hlen
    have hbody : _write_sector_body r data sector =
        writeBlocks r (get_start_block sector) (data ++ List.replicate (48 - data.length) 0) [0, 1, 2] := by
      unfold _write_sector_body
      rw [if_neg (by omega)]
    simp only [_write_sector]
    rw [hss]
    simp only [hbody]
    simp [writeBlocks, hw]
  · intro hlen
    have hbody : _write_sector_body r data sector =
        (.error (.rfid (.readWriteFailure "Data exceeds the maximum size of 3 blocks (48 bytes).")), []) := by
      unfold _write_sector_body
      rw [if_pos (by omega)]
    simp only [_write_sector]
    rw [hss]
    simp only [hbody]

/-- Witness for `c3_oversize_amended` on concrete 48- and 49-byte payloads. -/
theorem c3_oversize_amended_witness :
    (_write_sector (allOkReader zeroStore) (List.replicate 48 66) SECTOR_USERNAME
        [1, 2, 3, 4] DEFAULT_KEY).1 = .ok () ∧
    _write_sector (allOkReader zeroStore) (List.replicate 49 65) SECTOR_USERNAME
        [1, 2, 3, 4] DEFAULT_KEY =
      (.error (.rfid (.readWriteFailure "Data exceeds the maximum size of 3 blocks (48 bytes).")),
        [.auth (get_start_block SECTOR_USERNAME) DEFAULT_KEY]) :=
  ⟨(c3_oversize_amended (allOkReader zeroStore) (List.replicate 48 66) [1, 2, 3, 4]
      DEFAULT_KEY SECTOR_USERNAME (by decide) (by decide) (fun _ _ => rfl)).1 (by decide),
   (c3_oversize_amended (allOkReader zeroStore) (List.replicate 49 65) [1, 2, 3, 4]
      DEFAULT_KEY SECTOR_USERNAME (by decide) (by decide) (fun _ _ => rfl)).2 (by decide)⟩

/-! ## Claim C6 — anti-collision failure -/

/-- C6 counterexample: with a card whose anti-collision step returns no UID,
the session does not fail with `ReadWriteFailure` and no RFID-family error
surfaces at all — the `except` handler reads the still-unassigned local
`uid_str` and the caller sees a `NameError`. -/
theorem c6_anticoll_counterexample :
    (card_session c6Reader [0, 0, 0, 0, 0, 0] none none (fun _ _ => ((Except.ok ()), []))).1 =
      .error (.nameError "uid_str") ∧
    isReadWriteFailureResult
      (card_session c6Reader [0, 0, 0, 0, 0, 0] none none (fun _ _ => ((Except.ok ()), []))).1 = false ∧
    isRFIDErrorResult
      (card_session c6Reader [0, 0, 0, 0, 0, 0] none none (fun _ _ => ((Except.ok ()), []))).1 = false :=
  ⟨by decide, by decide, by decide⟩

/-- C6 as amended: when anti-collision returns no UID the attempt body does
raise `ReadWriteFailureException` ("Failed to access card UID via
anticoll()."), but that error is caught by the key-fallback handler; on a
first attempt (no UID observed yet) the handler itself fails reading the
unassigned `uid_str` local, so the session surfaces a `NameError` to the
caller rather than a `ReadWriteFailure`. -/
theorem c6_anticoll_amended (r : Reader) (custom : List Byte) (op : CardOp α)
    (hc : custom.length = 6)
    (hreq : r.requestOk 0 0 = true)
    (hanti : r.anticoll 0 = none) :
    (attemptBody r none op 0 DEFAULT_KEY).1 =
      .error (.rfid (.readWriteFailure "Failed to access card UID via anticoll().")) ∧
    (card_session r custom none none op).1 = .error (.nameError "uid_str") := by
  have hrange : List.range 3 = [0, 1, 2] := rfl
  have hfind : firstOkTry r 0 = some 0 := by
    simp [firstOkTry, hrange, List.find?, hreq]
  have hbody : attemptBody r none op 0 DEFAULT_KEY =
      (.error (.rfid (.readWriteFailure "Failed to access card UID via anticoll().")), none,
        [.request 0 0, .anticoll 0]) := by
    simp [attemptBody, hfind, hanti, requestEvents]
    rfl
  refine ⟨by rw [hbody], ?_⟩
  have hkc : key_candidates custom none = .ok [DEFAULT_KEY, custom] := by
    simp [key_candidates, _normalize_key, hc, DEFAULT_KEY]
  have henum : ([DEFAULT_KEY, custom]).enum = [(0, DEFAULT_KEY), (1, custom)] := rfl
  have hatt : attempt r none op 0 DEFAULT_KEY none =
      (.uncaught (.nameError "uid_str"), none, [.request 0 0, .anticoll 0, .stopCrypto]) := by
    simp [attempt, hbody, caughtByCardSession, Option.orElse]
  simp [card_session, hkc, henum, sessionLoop, hatt]

/-- Witness for `c6_anticoll_amended` on the concrete `c6Reader`. -/
theorem c6_anticoll_amended_witness :
    (attemptBody c6Reader none (fun _ _ => ((Except.ok ()), [])) 0 DEFAULT_KEY).1 =
      .error (.rfid (.readWriteFailure "Failed to access card UID via anticoll().")) ∧
    (card_session c6Reader [0, 0, 0, 0, 0, 0] none none (fun _ _ => ((Except.ok ()), []))).1 =
      .error (.nameError "uid_str") :=
  c6_anticoll_amended c6Reader [0, 0, 0, 0, 0, 0] (fun _ _ => ((Except.ok ()), []))
    (by decide) (by decide) (by decide)

/-! ## Claim C8 — write-then-read round trip -/

/-- Stripping trailing null bytes ignores appended zero padding. -/
theorem rstrip_append_zeros (l : List Byte) (k : Nat) :
    rstripNulls (l ++ List.replicate k 0) = rstripNulls l := by
  unfold rstripNulls
  rw [List.reverse_append, List.reverse_replicate]
  congr 1
  induction k with
  | zero => simp
  | succ n ih => simp [List.replicate_succ, List.dropWhile_cons, ih]

/-- Stripping trailing null bytes is the identity on data that does not end
in a null byte. -/
theorem rstrip_no_trailing (l : List Byte) (h : l.getLast? ≠ some 0) :
    rstripNulls l = l := by
  induction l using List.reverseRecOn with
  | nil => rfl
  | append_singleton l' a _ =>
    have ha : a ≠ 0 := by
      intro hzero
      apply h
      rw [hzero, List.getLast?_concat]
    unfold rstripNulls
    rw [List.reverse_append]
    simp [List.dropWhile_cons, ha]

/-- Reassembling the three 16-byte block slices of a 48-byte buffer yields
the buffer. -/
theorem take_reassemble_48 (l : List Byte) (h : l.length = 48) :
    l.take 16 ++ ((l.drop 16).take 16 ++ (l.drop 32).take 16) = l := by
  have h32 : (l.drop 32).take 16 = l.drop 32 := by
    apply List.take_of_length_le
    simp [h]
  rw [h32]
  have hdd : (l.drop 16).drop 16 = l.drop 32 := by
    rw [List.drop_drop]
  rw [← hdd, List.take_append_drop, List.take_append_drop]

/-- C8 as amended: for every payload of at most 48 bytes that does not end
in a null byte (in particular the empty payload), writing it with
`_write_sector` and reading the sector back with `_read_sector` returns the
payload exactly.  (A payload ending in `0x00` is the exception — see the
counterexample.) -/
theorem c8_roundtrip_amended (data uid key : List Byte) (sector : Nat)
    (hk : key.length = 6) (hlen : data.length ≤ 48) (hlast : data.getLast? ≠ some 0) :
    write_then_read data sector uid key = .ok data := by
  set sb := get_start_block sector with hsb
  set padded := data ++ List.replicate (48 - data.length) 0 with hpad
  have hplen : padded.length = 48 := by
    rw [hpad]
    simp
    omega
  set wtrace : List Event := [.auth sb key, .writeB sb (padded.take 16),
      .writeB (sb + 1) ((padded.drop 16).take 16),
      .writeB (sb + 2) ((padded.drop 32).take 16)] with hwtr
  -- the write phase
  have hbody : _write_sector_body (allOkReader zeroStore) data sector =
      (.ok (), [.writeB sb (padded.take 16), .writeB (sb + 1) ((padded.drop 16).take 16),
                .writeB (sb + 2) ((padded.drop 32).take 16)]) := by
    unfold _write_sector_body
    rw [if_neg (by omega)]
    simp [writeBlocks, allOkReader]
  have hw1 : _write_sector (allOkReader zeroStore) data sector uid key = (.ok (), wtrace) := by
    have hss := sector_session_auth_ok (allOkReader zeroStore) false sector uid key
      (_write_sector_body (allOkReader zeroStore) data sector) hk rfl
    simp only [Bool.false_eq_true, if_false] at hss
    simp only [_write_sector]
    rw [hss, hbody, hwtr]
  -- the store after the write
  have hrd0 : applyWriteEvents zeroStore wtrace sb = padded.take 16 := by
    rw [hwtr]
    simp [applyWriteEvents]
  have hrd1 : applyWriteEvents zeroStore wtrace (sb + 1) = (padded.drop 16).take 16 := by
    rw [hwtr]
    simp [applyWriteEvents]
  have hrd2 : applyWriteEvents zeroStore wtrace (sb + 2) = (padded.drop 32).take 16 := by
    rw [hwtr]
    simp [applyWriteEvents]
  -- block nonemptiness
  have hne0 : padded.take 16 ≠ [] := by
    intro hnil
    have := congrArg List.length hnil
    rw [List.length_take, hplen] at this
    simp at this
  have hne1 : (padded.drop 16).take 16 ≠ [] := by
    intro hnil
    have := congrArg List.length hnil
    rw [List.length_take, List.length_drop, hplen] at this
    simp at this
  have hne2 : (padded.drop 32).take 16 ≠ [] := by
    intro hnil
    have := congrArg List.length hnil
    rw [List.length_take, List.length_drop, hplen] at this
    simp at this
  -- the read phase
  have hrblocks : readBlocks (allOkReader (applyWriteEvents zeroStore wtrace)) sb [0, 1, 2] =
      (.ok padded, [.readB sb, .readB (sb + 1), .readB (sb + 2)]) := by
    simp only [readBlocks, allOkReader, Nat.add_zero, hrd0, hrd1, hrd2]
    rw [if_neg hne0, if_neg hne1, if_neg hne2]
    simp [take_reassemble_48 padded hplen]
  have hread : _read_sector (allOkReader (applyWriteEvents zeroStore wtrace)) sector uid key =
      (.ok (rstripNulls padded), [.auth sb key, .readB sb, .readB (sb + 1), .readB (sb + 2)]) := by
    have hss := sector_session_auth_ok (allOkReader (applyWriteEvents zeroStore wtrace)) false sector
      uid key (_read_sector_body (allOkReader (applyWriteEvents zeroStore wtrace)) sector) hk rfl
    simp only [Bool.false_eq_true, if_false] at hss
    simp only [_read_sector]
    rw [hss]
    unfold _read_sector_body
    rw [hrblocks]
  have hstrip : rstripNulls padded = data := by
    rw [hpad, rstrip_append_zeros, rstrip_no_trailing data hlast]
  simp only [write_then_read, hw1]
  rw [hread, hstrip]

/-- Witness for `c8_roundtrip_amended` on a concrete 2-byte payload. -/
theorem c8_roundtrip_amended_witness :
    write_then_read [104, 105] SECTOR_USERNAME [1, 2, 3, 4] DEFAULT_KEY = .ok [104, 105] :=
  c8_roundtrip_amended [104, 105] [1, 2, 3, 4] DEFAULT_KEY SECTOR_USERNAME
    (by decide) (by decide) (by decide)

/-- C8 counterexample: the one-byte string `"\x00"` (UTF-8 encoding `[0]`)
is at most 48 bytes, yet writing it and reading the sector back yields the
empty string, because `_read_sector` strips all trailing null bytes —
including ones that belonged to the payload. -/
theorem c8_roundtrip_counterexample :
    write_then_read [0] SECTOR_USERNAME [1, 2, 3, 4] DEFAULT_KEY = .ok [] ∧
    write_then_read [0] SECTOR_USERNAME [1, 2, 3, 4] DEFAULT_KEY ≠ .ok [0] :=
  ⟨by decide, by decide⟩

/-! ## Claim C9 — sector rekeying -/

/-- C9: `_set_sector_key` authenticates on the sector trailer block — which
differs from the start block for every sector — using the old key, then
writes exactly the 16 bytes `new_key ++ [0xFF, 0x07, 0x80, 0x69] ++ new_key`
to that trailer block, failing with `ReadWriteFailure` when the write fails;
and `set_key_for_all_sectors` applies this to the four application sectors
in the fixed order metadata → username → identifier → password. -/
theorem c9_rekey_trailer (r : Reader) (new_key uid key : List Byte)
    (hnk : new_key.length = 6) (hk : key.length = 6) :
    (∀ s, get_sector_trailer s ≠ get_start_block s) ∧
    (new_key ++ [0xFF, 0x07, 0x80, 0x69] ++ new_key).length = 16 ∧
    (∀ s, r.authOk (get_sector_trailer s) key uid = true →
      _set_sector_key r new_key s uid key =
        (if r.writeOk (get_sector_trailer s) (new_key ++ [0xFF, 0x07, 0x80, 0x69] ++ new_key) then
          (.ok (), [.auth (get_sector_trailer s) key,
            .writeB (get_sector_trailer s) (new_key ++ [0xFF, 0x07, 0x80, 0x69] ++ new_key)])
        else
          (.error (.rfid (.readWriteFailure ("Failed to update the key for sector " ++ Nat.repr s ++ "."))),
            [.auth (get_sector_trailer s) key,
             .writeB (get_sector_trailer s) (new_key ++ [0xFF, 0x07, 0x80, 0x69] ++ new_key)]))) ∧
    ((∀ b, r.authOk b key uid = true) → (∀ bn bd, r.writeOk bn bd = true) →
      set_key_for_all_sectors_body r new_key uid key =
        (.ok (), [.auth (get_sector_trailer SECTOR_META) key,
          .writeB (get_sector_trailer SECTOR_META) (new_key ++ [0xFF, 0x07, 0x80, 0x69] ++ new_key),
          .auth (get_sector_trailer SECTOR_USERNAME) key,
          .writeB (get_sector_trailer SECTOR_USERNAME) (new_key ++ [0xFF, 0x07, 0x80, 0x69] ++ new_key),
          .auth (get_sector_trailer SECTOR_COLLMEX_ID) key,
          .writeB (get_sector_trailer SECTOR_COLLMEX_ID) (new_key ++ [0xFF, 0x07, 0x80, 0x69] ++ new_key),
          .auth (get_sector_trailer SECTOR_PASSWORD) key,
          .writeB (get_sector_trailer SECTOR_PASSWORD) (new_key ++ [0xFF, 0x07, 0x80, 0x69] ++ new_key)])) := by
  have hnorm : _normalize_key new_key = .ok new_key := by simp [_normalize_key, hnk]
  have hbody : ∀ s, _set_sector_key_body r new_key s =
      (if r.writeOk (get_sector_trailer s) (new_key ++ [0xFF, 0x07, 0x80, 0x69] ++ new_key) then
        ((.ok (), [.writeB (get_sector_trailer s) (new_key ++ [0xFF, 0x07, 0x80, 0x69] ++ new_key)]) :
          Except PyError Unit × List Event)
      else
        (.error (.rfid (.readWriteFailure ("Failed to update the key for sector " ++ Nat.repr s ++ "."))),
          [.writeB (get_sector_trailer s) (new_key ++ [0xFF, 0x07, 0x80, 0x69] ++ new_key)])) := by
    intro s
    unfold _set_sector_key_body
    rw [hnorm]
  have hmain : ∀ s, r.authOk (get_sector_trailer s) key uid = true →
      _set_sector_key r new_key s uid key =
        (if r.writeOk (get_sector_trailer s) (new_key ++ [0xFF, 0x07, 0x80, 0x69] ++ new_key) then
          (.ok (), [.auth (get_sector_trailer s) key,
            .writeB (get_sector_trailer s) (new_key ++ [0xFF, 0x07, 0x80, 0x69] ++ new_key)])
        else
          (.error (.rfid (.readWriteFailure ("Failed to update the key for sector " ++ Nat.repr s ++ "."))),
            [.auth (get_sector_trailer s) key,
             .writeB (get_sector_trailer s) (new_key ++ [0xFF, 0x07, 0x80, 0x69] ++ new_key)])) := by
    intro s hauth
    have hss := sector_session_auth_ok r true s uid key (_set_sector_key_body r new_key s) hk
      (by simpa using hauth)
    simp only [if_true] at hss
    simp only [_set_sector_key]
    rw [hss, hbody s]
    split_ifs with hwk <;> rfl
  refine ⟨?_, ?_, hmain, ?_⟩
  · intro s
    unfold get_sector_trailer get_start_block
    by_cases hs : s < 32
    · rw [if_pos hs, if_pos hs]
      omega
    · rw [if_neg hs, if_neg hs]
      omega
  · simp [hnk]
  · intro hA hW
    have hone : ∀ s, _set_sector_key r new_key s uid key =
        (.ok (), [.auth (get_sector_trailer s) key,
          .writeB (get_sector_trailer s) (new_key ++ [0xFF, 0x07, 0x80, 0x69] ++ new_key)]) := by
      intro s
      rw [hmain s (hA (get_sector_trailer s)), if_pos (hW _ _)]
    simp [set_key_for_all_sectors_body, sectorSeq, hone]

/-- Witness for `c9_rekey_trailer` with a concrete new key on an all-OK
transport. -/
theorem c9_rekey_trailer_witness :
    set_key_for_all_sectors_body (allOkReader zeroStore) [1, 2, 3, 4, 5, 6] [9, 9, 9, 9] DEFAULT_KEY =
      (.ok (), [.auth (get_sector_trailer SECTOR_META) DEFAULT_KEY,
        .writeB (get_sector_trailer SECTOR_META) ([1, 2, 3, 4, 5, 6] ++ [0xFF, 0x07, 0x80, 0x69] ++ [1, 2, 3, 4, 5, 6]),
        .auth (get_sector_trailer SECTOR_USERNAME) DEFAULT_KEY,
        .writeB (get_sector_trailer SECTOR_USERNAME) ([1, 2, 3, 4, 5, 6] ++ [0xFF, 0x07, 0x80, 0x69] ++ [1, 2, 3, 4, 5, 6]),
        .auth (get_sector_trailer SECTOR_COLLMEX_ID) DEFAULT_KEY,
        .writeB (get_sector_trailer SECTOR_COLLMEX_ID) ([1, 2, 3, 4, 5, 6] ++ [0xFF, 0x07, 0x80, 0x69] ++ [1, 2, 3, 4, 5, 6]),
        .auth (get_sector_trailer SECTOR_PASSWORD) DEFAULT_KEY,
        .writeB (get_sector_trailer SECTOR_PASSWORD) ([1, 2, 3, 4, 5, 6] ++ [0xFF, 0x07, 0x80, 0x69] ++ [1, 2, 3, 4, 5, 6])]) :=
  (c9_rekey_trailer (allOkReader zeroStore) [1, 2, 3, 4, 5, 6] [9, 9, 9, 9] DEFAULT_KEY
    (by decide) (by decide)).2.2.2 (fun _ => rfl) (fun _ _ => rfl)

/-! ## Claim C7 — crypto teardown after every attempt -/

/-- The `finally: reader.stop_crypto1()` clause: every attempt trace is the
attempt body trace followed by the `stopCrypto` teardown call, on every exit
path (success, caught failure, uncaught error). -/
theorem attempt_trace (r : Reader) (fu : Option (List Byte)) (op : CardOp α) (a : Nat)
    (ikey : List Byte) (us : Option String) :
    (attempt r fu op a ikey us).2.2 = (attemptBody r fu op a ikey).2.2 ++ [.stopCrypto] := by
  unfold attempt
  rcases hb : attemptBody r fu op a ikey with ⟨res, us1, tr⟩
  simp only [hb]
  cases res with
  | ok v => rfl
  | error e =>
    cases hcb : caughtByCardSession e with
    | true =>
      simp only [hcb, if_true]
      cases us1.orElse (fun _ => us) <;> rfl
    | false => simp [hcb]

/-- The transport trace of the candidate-key loop is the concatenation of
its per-attempt traces. -/
theorem sessionLoop_trace_join (r : Reader) (fu : Option (List Byte)) (op : CardOp α) :
    ∀ (l : List (Nat × List Byte)) (us : Option String),
      (sessionLoop r fu op l us).2 = (sessionAttemptTraces r fu op l us).flatten := by
  intro l
  induction l with
  | nil => intro us; cases us <;> rfl
  | cons hd tl ih =>
    intro us
    rcases hd with ⟨a, ikey⟩
    unfold sessionLoop sessionAttemptTraces
    rcases ha : attempt r fu op a ikey us with ⟨ex, us2, tr⟩
    simp only [ha]
    cases ex with
    | success v => simp
    | caught => simp [ih us2]
    | uncaught e => simp

/-- Every started attempt ends with the `stopCrypto` teardown call. -/
theorem sessionAttemptTraces_last (r : Reader) (fu : Option (List Byte)) (op : CardOp α) :
    ∀ (l : List (Nat × List Byte)) (us : Option String) (t : List Event),
      t ∈ sessionAttemptTraces r fu op l us → t.getLast? = some .stopCrypto := by
  intro l
  induction l with
  | nil =>
    intro us t ht
    simp [sessionAttemptTraces] at ht
  | cons hd tl ih =>
    intro us t ht
    rcases hd with ⟨a, ikey⟩
    unfold sessionAttemptTraces at ht
    rcases ha : attempt r fu op a ikey us with ⟨ex, us2, tr⟩
    rw [ha] at ht
    have htr : tr = (attemptBody r fu op a ikey).2.2 ++ [.stopCrypto] := by
      have h2 := attempt_trace r fu op a ikey us
      rw [ha] at h2
      exact h2
    cases ex with
    | success v =>
      simp at ht
      rw [ht, htr, List.getLast?_concat]
    | caught =>
      simp at ht
      rcases ht with h1 | h2
      · rw [h1, htr, List.getLast?_concat]
      · exact ih us2 t h2
    | uncaught e =>
      simp at ht
      rw [ht, htr, List.getLast?_concat]

/-- C7: in every card session — any transport behaviour, forced uid/key or
not, any wrapped operation — the transport trace decomposes into the traces
of the attempts that were started, and every one of those attempt traces
ends with the `stopCrypto` teardown, so crypto state never persists past an
attempt into the next attempt or session. -/
theorem c7_crypto_teardown (r : Reader) (custom : List Byte)
    (fu fk : Option (List Byte)) (op : CardOp α) :
    (card_session r custom fu fk op).2 = (card_session_attempt_traces r custom fu fk op).flatten ∧
    ∀ t ∈ card_session_attempt_traces r custom fu fk op, t.getLast? = some Event.stopCrypto := by
  constructor
  · unfold card_session card_session_attempt_traces
    cases hkc : key_candidates custom fk with
    | error e => rfl
    | ok keys => exact sessionLoop_trace_join r fu op keys.enum none
  · intro t ht
    unfold card_session_attempt_traces at ht
    cases hkc : key_candidates custom fk with
    | error e =>
      rw [hkc] at ht
      simp at ht
    | ok keys =>
      rw [hkc] at ht
      exact sessionAttemptTraces_last r fu op keys.enum none t ht


/-- Witness for `c7_crypto_teardown` on a concrete single-attempt session. -/
theorem c7_crypto_teardown_witness :
    ([Event.request 0 0, Event.anticoll 0, Event.stopCrypto]).getLast? = some Event.stopCrypto :=
  (c7_crypto_teardown (allOkReader zeroStore) [0, 0, 0, 0, 0, 0] none none
      (fun _ _ => ((Except.ok ()), []))).2
    [Event.request 0 0, Event.anticoll 0, Event.stopCrypto] (by decide)

/-! ## Claim C1 — key candidate order and fallback -/

/-- Evaluation of one attempt body over a present, selectable card with no
forced UID: detection succeeds on the first try, the UID is accepted,
`uid_str` is assigned, and the wrapped operation runs. -/
theorem attemptBody_present (r : Reader) (op : CardOp α) (a : Nat) (ikey uid : List Byte)
    (hreq : r.requestOk a 0 = true) (hanti : r.anticoll a = some uid) (hu : uid ≠ [])
    (hsel : r.selectOk a uid = true) :
    attemptBody r none op a ikey =
      ((op uid ikey).1, some (uid2str uid),
        [.request a 0, .anticoll a, .selectTag uid] ++ (op uid ikey).2) := by
  unfold attemptBody
  have hfind : firstOkTry r a = some 0 := by
    simp [firstOkTry, show List.range 3 = [0, 1, 2] from rfl, List.find?, hreq]
  rw [hfind, hanti]
  simp only [if_neg hu]
  unfold attemptTail
  simp [hsel, requestEvents]
  rfl

/-- C1: with no forced key the candidate list is exactly
`[DEFAULT_KEY, CUSTOM_KEY]`; against a card that authenticates only with the
CUSTOM key the session tries DEFAULT first, falls through, succeeds under
CUSTOM (auth calls in the order DEFAULT then CUSTOM); against a card that
authenticates with neither, the session fails with
`AuthenticationFailure` naming the last observed UID, after both candidates
were tried. -/
theorem c1_key_fallback (uid custom : List Byte)
    (hu : uid ≠ []) (hc : custom.length = 6) (hne : custom ≠ DEFAULT_KEY) :
    key_candidates custom none = .ok [DEFAULT_KEY, custom] ∧
    (card_session (c1ReaderOnlyCustom uid custom) custom none none
        (fun u k => _read_sector (c1ReaderOnlyCustom uid custom) SECTOR_META u k)).1 =
      .ok (List.replicate 48 1) ∧
    authKeysOf (card_session (c1ReaderOnlyCustom uid custom) custom none none
        (fun u k => _read_sector (c1ReaderOnlyCustom uid custom) SECTOR_META u k)).2 =
      [DEFAULT_KEY, custom] ∧
    (card_session (c1ReaderNoKey uid) custom none none
        (fun u k => _read_sector (c1ReaderNoKey uid) SECTOR_META u k)).1 =
      .error (.rfid (.authenticationFailure
        ("Cannot access RFID card " ++ uid2str uid ++ " with provided/known keys."))) ∧
    authKeysOf (card_session (c1ReaderNoKey uid) custom none none
        (fun u k => _read_sector (c1ReaderNoKey uid) SECTOR_META u k)).2 =
      [DEFAULT_KEY, custom] := by
  have hkc : key_candidates custom none = .ok [DEFAULT_KEY, custom] := by
    simp [key_candidates, _normalize_key, hc, DEFAULT_KEY]
  have henum : ([DEFAULT_KEY, custom]).enum = [(0, DEFAULT_KEY), (1, custom)] := rfl
  -- scenario 1: a card accepting only the CUSTOM key
  have hauthD : ∀ b, (c1ReaderOnlyCustom uid custom).authOk b DEFAULT_KEY uid = false := by
    intro b
    show decide (DEFAULT_KEY = custom) = false
    exact decide_eq_false (fun h => hne h.symm)
  have hauthC : ∀ b, (c1ReaderOnlyCustom uid custom).authOk b custom uid = true := by
    intro b
    show decide (custom = custom) = true
    exact decide_eq_true rfl
  have hopD : _read_sector (c1ReaderOnlyCustom uid custom) SECTOR_META uid DEFAULT_KEY =
      (.error (.rfid (.authenticationFailure "Authentication failure (sector=1, block=4).")),
        [.auth 4 DEFAULT_KEY]) := by
    have h := sector_session_auth_fail (c1ReaderOnlyCustom uid custom) false SECTOR_META uid
      DEFAULT_KEY (_read_sector_body (c1ReaderOnlyCustom uid custom) SECTOR_META) (by decide)
      (by simpa using hauthD _)
    simp only [_read_sector]
    rw [h]
    rfl
  have hopC : _read_sector (c1ReaderOnlyCustom uid custom) SECTOR_META uid custom =
      (.ok (List.replicate 48 1), [.auth 4 custom, .readB 4, .readB 5, .readB 6]) := by
    have h := sector_session_auth_ok (c1ReaderOnlyCustom uid custom) false SECTOR_META uid custom
      (_read_sector_body (c1ReaderOnlyCustom uid custom) SECTOR_META) hc (by simpa using hauthC _)
    simp only [Bool.false_eq_true, if_false] at h
    simp only [_read_sector]
    rw [h]
    have hbody : _read_sector_body (c1ReaderOnlyCustom uid custom) SECTOR_META =
        (.ok (List.replicate 48 1), [.readB 4, .readB 5, .readB 6]) := rfl
    rw [hbody]
    rfl
  have hb0 := attemptBody_present (c1ReaderOnlyCustom uid custom)
    (fun u k => _read_sector (c1ReaderOnlyCustom uid custom) SECTOR_META u k)
    0 DEFAULT_KEY uid rfl rfl hu rfl
  simp only [hopD] at hb0
  have hb1 := attemptBody_present (c1ReaderOnlyCustom uid custom)
    (fun u k => _read_sector (c1ReaderOnlyCustom uid custom) SECTOR_META u k)
    1 custom uid rfl rfl hu rfl
  simp only [hopC] at hb1
  have hatt0 : attempt (c1ReaderOnlyCustom uid custom) none
      (fun u k => _read_sector (c1ReaderOnlyCustom uid custom) SECTOR_META u k) 0 DEFAULT_KEY none =
      (.caught, some (uid2str uid),
        [.request 0 0, .anticoll 0, .selectTag uid, .auth 4 DEFAULT_KEY, .stopCrypto]) := by
    simp [attempt, hb0, caughtByCardSession, Option.orElse]
  have hatt1 : attempt (c1ReaderOnlyCustom uid custom) none
      (fun u k => _read_sector (c1ReaderOnlyCustom uid custom) SECTOR_META u k) 1 custom
      (some (uid2str uid)) =
      (.success (List.replicate 48 1), some (uid2str uid),
        [.request 1 0, .anticoll 1, .selectTag uid, .auth 4 custom, .readB 4, .readB 5, .readB 6,
          .stopCrypto]) := by
    simp [attempt, hb1]
  have hsess1 : card_session (c1ReaderOnlyCustom uid custom) custom none none
      (fun u k => _read_sector (c1ReaderOnlyCustom uid custom) SECTOR_META u k) =
      (.ok (List.replicate 48 1),
        [.request 0 0, .anticoll 0, .selectTag uid, .auth 4 DEFAULT_KEY, .stopCrypto,
         .request 1 0, .anticoll 1, .selectTag uid, .auth 4 custom, .readB 4, .readB 5, .readB 6,
         .stopCrypto]) := by
    simp [card_session, hkc, henum, sessionLoop, hatt0, hatt1]
  -- scenario 2: a card accepting neither key
  have hauthN : ∀ b k, (c1ReaderNoKey uid).authOk b k uid = false := fun _ _ => rfl
  have hopND : _read_sector (c1ReaderNoKey uid) SECTOR_META uid DEFAULT_KEY =
      (.error (.rfid (.authenticationFailure "Authentication failure (sector=1, block=4).")),
        [.auth 4 DEFAULT_KEY]) := by
    have h := sector_session_auth_fail (c1ReaderNoKey uid) false SECTOR_META uid DEFAULT_KEY
      (_read_sector_body (c1ReaderNoKey uid) SECTOR_META) (by decide) (by simpa using hauthN _ _)
    simp only [_read_sector]
    rw [h]
    rfl
  have hopNC : _read_sector (c1ReaderNoKey uid) SECTOR_META uid custom =
      (.error (.rfid (.authenticationFailure "Authentication failure (sector=1, block=4).")),
        [.auth 4 custom]) := by
    have h := sector_session_auth_fail (c1ReaderNoKey uid) false SECTOR_META uid custom
      (_read_sector_body (c1ReaderNoKey uid) SECTOR_META) hc (by simpa using hauthN _ _)
    simp only [_read_sector]
    rw [h]
    rfl
  have hnb0 := attemptBody_present (c1ReaderNoKey uid)
    (fun u k => _read_sector (c1ReaderNoKey uid) SECTOR_META u k) 0 DEFAULT_KEY uid rfl rfl hu rfl
  simp only [hopND] at hnb0
  have hnb1 := attemptBody_present (c1ReaderNoKey uid)
    (fun u k => _read_sector (c1ReaderNoKey uid) SECTOR_META u k) 1 custom uid rfl rfl hu rfl
  simp only [hopNC] at hnb1
  have hnatt0 : attempt (c1ReaderNoKey uid) none
      (fun u k => _read_sector (c1ReaderNoKey uid) SECTOR_META u k) 0 DEFAULT_KEY none =
      (.caught, some (uid2str uid),
        [.request 0 0, .anticoll 0, .selectTag uid, .auth 4 DEFAULT_KEY, .stopCrypto]) := by
    simp [attempt, hnb0, caughtByCardSession, Option.orElse]
  have hnatt1 : attempt (c1ReaderNoKey uid) none
      (fun u k => _read_sector (c1ReaderNoKey uid) SECTOR_META u k) 1 custom
      (some (uid2str uid)) =
      (.caught, some (uid2str uid),
        [.request 1 0, .anticoll 1, .selectTag uid, .auth 4 custom, .stopCrypto]) := by
    simp [attempt, hnb1, caughtByCardSession, Option.orElse]
  have hsess2 : card_session (c1ReaderNoKey uid) custom none none
      (fun u k => _read_sector (c1ReaderNoKey uid) SECTOR_META u k) =
      (.error (.rfid (.authenticationFailure
          ("Cannot access RFID card " ++ uid2str uid ++ " with provided/known keys."))),
        [.request 0 0, .anticoll 0, .selectTag uid, .auth 4 DEFAULT_KEY, .stopCrypto,
         .request 1 0, .anticoll 1, .selectTag uid, .auth 4 custom, .stopCrypto]) := by
    simp [card_session, hkc, henum, sessionLoop, hnatt0, hnatt1]
  refine ⟨hkc, ?_, ?_, ?_, ?_⟩
  · rw [hsess1]
  · rw [hsess1]
    simp [authKeysOf, List.filterMap]
  · rw [hsess2]
  · rw [hsess2]
    simp [authKeysOf, List.filterMap]

/-- Witness for `c1_key_fallback` at a concrete UID and CUSTOM key. -/
theorem c1_key_fallback_witness :
    (card_session (c1ReaderOnlyCustom [1, 2, 3, 4] [1, 2, 3, 4, 5, 6]) [1, 2, 3, 4, 5, 6] none none
        (fun u k => _read_sector (c1ReaderOnlyCustom [1, 2, 3, 4] [1, 2, 3, 4, 5, 6]) SECTOR_META u k)).1 =
      .ok (List.replicate 48 1) ∧
    authKeysOf (card_session (c1ReaderNoKey [1, 2, 3, 4]) [1, 2, 3, 4, 5, 6] none none
        (fun u k => _read_sector (c1ReaderNoKey [1, 2, 3, 4]) SECTOR_META u k)).2 =
      [DEFAULT_KEY, [1, 2, 3, 4, 5, 6]] :=
  ⟨(c1_key_fallback [1, 2, 3, 4] [1, 2, 3, 4, 5, 6] (by decide) (by decide) (by decide)).2.1,
   (c1_key_fallback [1, 2, 3, 4] [1, 2, 3, 4, 5, 6] (by decide) (by decide) (by decide)).2.2.2.2⟩

/-! ## Claim C4 — metadata validation -/

/-- Every error raised by the block-read loop is a `ReadWriteFailure`. -/
theorem readBlocks_error_rwf (r : Reader) (sb : Nat) :
    ∀ (l : List Nat) (e : PyError), (readBlocks r sb l).1 = .error e →
      ∃ msg, e = .rfid (.readWriteFailure msg) := by
  intro l
  induction l with
  | nil =>
    intro e h
    simp [readBlocks] at h
  | cons i rest ih =>
    intro e h
    unfold readBlocks at h
    dsimp only at h
    cases hrb : r.readBlock (sb + i) with
    | none =>
      rw [hrb] at h
      simp at h
      exact ⟨_, h.symm⟩
    | some bd =>
      rw [hrb] at h
      dsimp only at h
      by_cases hbd : bd = []
      · rw [if_pos hbd] at h
        simp at h
        exact ⟨_, h.symm⟩
      · rw [if_neg hbd] at h
        rcases htl : readBlocks r sb rest with ⟨res, tr⟩
        rw [htl] at h
        cases res with
        | ok v => simp at h
        | error e2 =>
          simp at h
          subst h
          exact ih e2 (by rw [htl])

/-- `_read_sector` never raises `UnexpectedMetaDataException`: its failure
modes are `ValueError` (bad key length), `AuthenticationFailure` and
`ReadWriteFailure` only. -/
theorem read_sector_not_umd (r : Reader) (s : Nat) (uid key : List Byte) (msg : String) :
    (_read_sector r s uid key).1 ≠ .error (.rfid (.unexpectedMetaData msg)) := by
  intro h
  unfold _read_sector sector_session at h
  by_cases hlen : key.length = 6
  · simp only [_normalize_key, if_pos hlen] at h
    by_cases hauth : r.authOk (if (false : Bool) then get_sector_trailer s else get_start_block s) key uid = true
    · rw [if_pos (by simpa using hauth)] at h
      unfold _read_sector_body at h
      rcases hrb : readBlocks r (get_start_block s) [0, 1, 2] with ⟨res, tr⟩
      rw [hrb] at h
      cases res with
      | ok v => simp at h
      | error e2 =>
        simp at h
        obtain ⟨m2, hm2⟩ := readBlocks_error_rwf r (get_start_block s) [0, 1, 2] e2 (by rw [hrb])
        rw [hm2] at h
        simp at h
    · rw [if_neg (by simpa using hauth)] at h
      simp at h
  · simp only [_normalize_key, if_neg hlen] at h
    simp at h

/-- Splitting at the first separator of `pre ++ sep :: suf` recovers
`(pre, suf)` when `pre` does not contain the separator. -/
theorem splitSep_append (sep : Byte) (pre suf : List Byte) (h : sep ∉ pre) :
    splitSep sep (pre ++ sep :: suf) = some (pre, suf) := by
  induction pre with
  | nil => simp [splitSep]
  | cons b bs ih =>
    have hb : b ≠ sep := by
      intro hh
      exact h (by simp [hh])
    have hbs : sep ∉ bs := fun hh => h (List.mem_cons_of_mem _ hh)
    simp [splitSep, hb, ih hbs]

/-- C4: given that the metadata sector reads back as the string `m`,
`read_data` fails with `UnexpectedMetaData` if and only if `m` fails the
`"<prefix>_<digits>"` check of `check_valid_meta_format_pure` (no `'_'`
separator, or prefix before the first `'_'` differing from the configured
prefix, or non-digit / empty suffix); and when `m` is
`"<configured prefix>_1"` (prefix itself containing no `'_'`) the read
succeeds, reads the remaining three sectors, and returns a record with
`flags = 1`. -/
theorem c4_metadata_validation (r : Reader) (cfg uid key m : List Byte) (tr0 : List Event)
    (hmeta : _read_sector r SECTOR_META uid key = (.ok m, tr0)) :
    ((∃ msg, (read_data_body r cfg uid key).1 = .error (.rfid (.unexpectedMetaData msg))) ↔
      check_valid_meta_format_pure cfg m = false) ∧
    (∀ u c p tru trc trp, (95 : Byte) ∉ cfg → m = cfg ++ 95 :: [49] →
      _read_sector r SECTOR_USERNAME uid key = (.ok u, tru) →
      _read_sector r SECTOR_COLLMEX_ID uid key = (.ok c, trc) →
      _read_sector r SECTOR_PASSWORD uid key = (.ok p, trp) →
      (read_data_body r cfg uid key).1 = .ok ⟨uid, u, c, p, 1, cfg⟩) := by
  constructor
  · unfold read_data_body
    rw [hmeta]
    dsimp only
    cases hsplit : splitSep 95 m with
    | none =>
      simp [check_valid_meta_format_pure, hsplit]
    | some pr =>
      rcases pr with ⟨pre, suf⟩
      dsimp only
      by_cases hpre : pre = cfg
      · subst hpre
        rw [if_neg (by simp)]
        by_cases hdig : isdigitBytes suf = true
        · rw [if_neg (by simp [hdig])]
          simp only [check_valid_meta_format_pure, hsplit, hdig]
          constructor
          · rintro ⟨msg, hmsg⟩
            exfalso
            rcases hru : _read_sector r SECTOR_USERNAME uid key with ⟨resu, tru⟩
            rw [hru] at hmsg
            cases resu with
            | error e =>
              dsimp only at hmsg
              injection hmsg with he
              subst he
              exact read_sector_not_umd r SECTOR_USERNAME uid key msg (by rw [hru])
            | ok u =>
              dsimp only at hmsg
              rcases hrc : _read_sector r SECTOR_COLLMEX_ID uid key with ⟨resc, trc⟩
              rw [hrc] at hmsg
              cases resc with
              | error e =>
                dsimp only at hmsg
                injection hmsg with he
                subst he
                exact read_sector_not_umd r SECTOR_COLLMEX_ID uid key msg (by rw [hrc])
              | ok c =>
                dsimp only at hmsg
                rcases hrp : _read_sector r SECTOR_PASSWORD uid key with ⟨resp, trp⟩
                rw [hrp] at hmsg
                cases resp with
                | error e =>
                  dsimp only at hmsg
                  injection hmsg with he
                  subst he
                  exact read_sector_not_umd r SECTOR_PASSWORD uid key msg (by rw [hrp])
                | ok p => simp at hmsg
          · intro hfalse
            simp at hfalse
        · rw [if_pos (by simpa using hdig)]
          simp [check_valid_meta_format_pure, hsplit, hdig]
      · rw [if_pos (by simpa using hpre)]
        simp [check_valid_meta_format_pure, hsplit, hpre]
  · intro u c p tru trc trp hmem hm hru hrc hrp
    unfold read_data_body
    rw [hmeta]
    dsimp only
    rw [hm, splitSep_append 95 cfg [49] hmem]
    dsimp only
    rw [if_neg (by simp)]
    rw [if_neg (by decide)]
    rw [hru]
    dsimp only
    rw [hrc]
    dsimp only
    rw [hrp]
    rfl

/-- Witness for `c4_metadata_validation` on the concrete provisioned card
`c4Reader` with configured prefix `"p"`. -/
theorem c4_metadata_validation_witness :
    (read_data_body c4Reader [112] [1, 2, 3, 4] DEFAULT_KEY).1 =
      .ok ⟨[1, 2, 3, 4], [], [], [], 1, [112]⟩ ∧
    ((∃ msg, (read_data_body c4Reader [112] [1, 2, 3, 4] DEFAULT_KEY).1 =
        .error (.rfid (.unexpectedMetaData msg))) ↔
      check_valid_meta_format_pure [112] [112, 95, 49] = false) := by
  have h := c4_metadata_validation c4Reader [112] [1, 2, 3, 4] DEFAULT_KEY [112, 95, 49]
    [.auth 4 DEFAULT_KEY, .readB 4, .readB 5, .readB 6] (by decide)
  exact ⟨h.2 [] [] [] [.auth 8 DEFAULT_KEY, .readB 8, .readB 9, .readB 10]
      [.auth 12 DEFAULT_KEY, .readB 12, .readB 13, .readB 14]
      [.auth 16 DEFAULT_KEY, .readB 16, .readB 17, .readB 18]
      (by decide) (by decide) (by decide) (by decide) (by decide), h.1⟩

/-! ## Claim C5 — background poller -/

/-- C5: evaluation of the poller at its failing input.  With a present,
selectable card the poller iteration does not read under the DEFAULT key
only: `read_data(DEFAULT_KEY)` passes the key *positionally*, so no key is
forced (the candidate list is the full `[DEFAULT_KEY, CUSTOM_KEY]`) and the
wrapped `read_data` call receives the leftover positional argument on top of
the `uid` keyword, raising `TypeError` — which is caught by neither
`except` clause, crashing the polling loop instead of pulsing the relay.
With no card present the `NoCardDetected` failure is suppressed silently, as
the claim states. -/
theorem c5_poller_positional_key (uid : List Byte) (cf : Config)
    (hu : uid ≠ []) (hc : cf.custom_key.length = 6) :
    (_rfid_reading_iter (presentReader uid) cf).1 =
      .crashed (.typeError "read_data() got multiple values for argument uid") ∧
    key_candidates cf.custom_key none = .ok [DEFAULT_KEY, cf.custom_key] ∧
    (_rfid_reading_iter absentReader cf).1 = .silent := by
  have hkc : key_candidates cf.custom_key none = .ok [DEFAULT_KEY, cf.custom_key] := by
    simp [key_candidates, _normalize_key, hc, DEFAULT_KEY]
  have henum : ([DEFAULT_KEY, cf.custom_key]).enum = [(0, DEFAULT_KEY), (1, cf.custom_key)] := rfl
  refine ⟨?_, hkc, ?_⟩
  · have hb := attemptBody_present (presentReader uid)
      (fun u k => read_data_invoke (presentReader uid) cf 1 u k) 0 DEFAULT_KEY uid rfl rfl hu rfl
    simp only [read_data_invoke, bindDuplicate] at hb
    simp only [show (List.take 1 ["uid", "key"]).find?
        (fun p => List.contains ["uid", "key"] p) = some "uid" from rfl] at hb
    simp only [show "read_data() got multiple values for argument " ++ "uid" =
        "read_data() got multiple values for argument uid" from rfl] at hb
    have hatt0 : attempt (presentReader uid) none
        (fun u k => read_data_invoke (presentReader uid) cf 1 u k) 0 DEFAULT_KEY none =
        (.uncaught (.typeError "read_data() got multiple values for argument uid"),
          some (uid2str uid), [.request 0 0, .anticoll 0, .selectTag uid, .stopCrypto]) := by
      simp only [read_data_invoke, bindDuplicate]
      simp only [show (List.take 1 ["uid", "key"]).find?
          (fun p => List.contains ["uid", "key"] p) = some "uid" from rfl]
      simp only [show "read_data() got multiple values for argument " ++ "uid" =
          "read_data() got multiple values for argument uid" from rfl]
      simp [attempt, hb, caughtByCardSession, Option.orElse]
    simp only [_rfid_reading_iter, read_data_call, card_session, hkc, henum, sessionLoop,
      List.length_cons, List.length_nil]
    rw [hatt0]
  · have hattA : attempt absentReader none
        (fun u k => read_data_invoke absentReader cf 1 u k) 0 DEFAULT_KEY none =
        (.uncaught (.rfid (.noCardDetected "No RFID card detected.")), none,
          [.request 0 0, .request 0 1, .request 0 2, .stopCrypto]) := rfl
    simp only [_rfid_reading_iter, read_data_call, card_session, hkc, henum, sessionLoop,
      List.length_cons, List.length_nil]
    rw [hattA]

/-- Witness for `c5_poller_positional_key` at a concrete UID and config. -/
theorem c5_poller_positional_key_witness :
    (_rfid_reading_iter (presentReader [1, 2, 3, 4]) ⟨[112], [1, 2, 3, 4, 5, 6]⟩).1 =
      .crashed (.typeError "read_data() got multiple values for argument uid") ∧
    key_candidates (Config.custom_key ⟨[112], [1, 2, 3, 4, 5, 6]⟩) none =
      .ok [DEFAULT_KEY, Config.custom_key ⟨[112], [1, 2, 3, 4, 5, 6]⟩] ∧
    (_rfid_reading_iter absentReader ⟨[112], [1, 2, 3, 4, 5, 6]⟩).1 = .silent :=
  c5_poller_positional_key [1, 2, 3, 4] ⟨[112], [1, 2, 3, 4, 5, 6]⟩ (by decide) (by decide)

/-! ## Claim C10 — mutual exclusion of card sessions -/

/-- The initial two-task state satisfies the lock invariant. -/
theorem lockInv_init (trA trB : List Event) : LockInv trA trB (initState trA trB) := by
  refine ⟨rfl, rfl, by simp [initState, insideP], by simp [initState, insideP], .inl ⟨rfl, ?_⟩⟩
  intro h
  simp [initState, insideP] at h

/-- The lock invariant is preserved by every scheduler step. -/
theorem lockInv_step (trA trB : List Event) (s s2 : CState)
    (hstep : CStep s s2) (hinv : LockInv trA trB s) : LockInv trA trB s2 := by
  obtain ⟨hA, hB, hoA, hoB, hdisj⟩ := hinv
  cases hstep with
  | acquireA p s hph how =>
    rw [hph] at hA
    rw [how] at hoB
    simp only [phConsistent] at hA
    have hnB : ¬ insideP s.phB := fun hins => by simp at hoB; exact hoB hins
    have hemA : emittedOf s.phA = [] := by rw [hph]; rfl
    refine ⟨by simpa [phConsistent] using hA, hB, by simp [insideP], iff_of_false (by simp) hnB, ?_⟩
    right
    refine ⟨?_, fun _ => rfl⟩
    show s.trace = tagged true (emittedOf s.phB) ++ tagged false (emittedOf (TPhase.running [] p))
    rcases hdisj with ⟨htr, _⟩ | ⟨htr, _⟩
    · rw [htr, hemA]
      simp [tagged, emittedOf]
    · rw [htr, hemA]
      simp [tagged, emittedOf]
  | emitA em e p s hph =>
    have hinsA : insideP s.phA := by rw [hph]; trivial
    have howner : s.owner = some false := hoA.mpr hinsA
    have hnB : ¬ insideP s.phB := fun hins => by
      have h2 := hoB.mpr hins
      rw [howner] at h2
      simp at h2
    rw [hph] at hA
    simp only [phConsistent] at hA
    have hemA : emittedOf s.phA = em := by rw [hph]; rfl
    refine ⟨?_, hB, ?_, ?_, ?_⟩
    · show (em ++ [e]) ++ p = trA
      rw [List.append_assoc]
      simpa using hA
    · show s.owner = some false ↔ insideP (TPhase.running (em ++ [e]) p)
      simp [insideP, howner]
    · show s.owner = some true ↔ insideP s.phB
      exact hoB
    · rcases hdisj with ⟨htr, hcond⟩ | ⟨htr, hcond⟩
      · have hemB : emittedOf s.phB = [] := hcond hinsA
        left
        refine ⟨?_, fun _ => hemB⟩
        show s.trace ++ [(false, e)] =
          tagged false (emittedOf (TPhase.running (em ++ [e]) p)) ++ tagged true (emittedOf s.phB)
        rw [htr, hemA, hemB]
        simp [tagged, emittedOf]
      · right
        refine ⟨?_, fun hins => absurd hins hnB⟩
        show s.trace ++ [(false, e)] =
          tagged true (emittedOf s.phB) ++ tagged false (emittedOf (TPhase.running (em ++ [e]) p))
        rw [htr, hemA]
        simp [tagged, emittedOf, List.append_assoc]
  | releaseA em s hph =>
    have hinsA : insideP s.phA := by rw [hph]; trivial
    have howner : s.owner = some false := hoA.mpr hinsA
    have hnB : ¬ insideP s.phB := fun hins => by
      have h2 := hoB.mpr hins
      rw [howner] at h2
      simp at h2
    rw [hph] at hA
    simp only [phConsistent] at hA
    have hemA : emittedOf s.phA = em := by rw [hph]; rfl
    refine ⟨?_, hB, ?_, ?_, ?_⟩
    · show em = trA
      simpa using hA
    · simp [insideP]
    · exact iff_of_false (by simp) hnB
    · rcases hdisj with ⟨htr, hcond⟩ | ⟨htr, hcond⟩
      · left
        refine ⟨?_, fun hins => by simp [insideP] at hins⟩
        show s.trace = tagged false (emittedOf (TPhase.closed em)) ++ tagged true (emittedOf s.phB)
        rw [htr, hemA]
        rfl
      · right
        refine ⟨?_, fun hins => absurd hins hnB⟩
        show s.trace = tagged true (emittedOf s.phB) ++ tagged false (emittedOf (TPhase.closed em))
        rw [htr, hemA]
        rfl
  | acquireB p s hph how =>
    rw [hph] at hB
    rw [how] at hoA
    simp only [phConsistent] at hB
    have hnA : ¬ insideP s.phA := fun hins => by simp at hoA; exact hoA hins
    have hemB : emittedOf s.phB = [] := by rw [hph]; rfl
    refine ⟨hA, by simpa [phConsistent] using hB, iff_of_false (by simp) hnA, by simp [insideP], ?_⟩
    left
    refine ⟨?_, fun _ => rfl⟩
    show s.trace = tagged false (emittedOf s.phA) ++ tagged true (emittedOf (TPhase.running [] p))
    rcases hdisj with ⟨htr, _⟩ | ⟨htr, _⟩
    · rw [htr, hemB]
      simp [tagged, emittedOf]
    · rw [htr, hemB]
      simp [tagged, emittedOf]
  | emitB em e p s hph =>
    have hinsB : insideP s.phB := by rw [hph]; trivial
    have howner : s.owner = some true := hoB.mpr hinsB
    have hnA : ¬ insideP s.phA := fun hins => by
      have h2 := hoA.mpr hins
      rw [howner] at h2
      simp at h2
    rw [hph] at hB
    simp only [phConsistent] at hB
    have hemB : emittedOf s.phB = em := by rw [hph]; rfl
    refine ⟨hA, ?_, ?_, ?_, ?_⟩
    · show (em ++ [e]) ++ p = trB
      rw [List.append_assoc]
      simpa using hB
    · show s.owner = some false ↔ insideP s.phA
      exact hoA
    · show s.owner = some true ↔ insideP (TPhase.running (em ++ [e]) p)
      simp [insideP, howner]
    · rcases hdisj with ⟨htr, hcond⟩ | ⟨htr, hcond⟩
      · left
        refine ⟨?_, fun hins => absurd hins hnA⟩
        show s.trace ++ [(true, e)] =
          tagged false (emittedOf s.phA) ++ tagged true (emittedOf (TPhase.running (em ++ [e]) p))
        rw [htr, hemB]
        simp [tagged, emittedOf, List.append_assoc]
      · have hemA : emittedOf s.phA = [] := hcond hinsB
        right
        refine ⟨?_, fun _ => hemA⟩
        show s.trace ++ [(true, e)] =
          tagged true (emittedOf (TPhase.running (em ++ [e]) p)) ++ tagged false (emittedOf s.phA)
        rw [htr, hemA, hemB]
        simp [tagged, emittedOf]
  | releaseB em s hph =>
    have hinsB : insideP s.phB := by rw [hph]; trivial
    have howner : s.owner = some true := hoB.mpr hinsB
    have hnA : ¬ insideP s.phA := fun hins => by
      have h2 := hoA.mpr hins
      rw [howner] at h2
      simp at h2
    rw [hph] at hB
    simp only [phConsistent] at hB
    have hemB : emittedOf s.phB = em := by rw [hph]; rfl
    refine ⟨hA, ?_, ?_, ?_, ?_⟩
    · show em = trB
      simpa using hB
    · exact iff_of_false (by simp) hnA
    · simp [insideP]
    · rcases hdisj with ⟨htr, hcond⟩ | ⟨htr, hcond⟩
      · left
        refine ⟨?_, fun hins => absurd hins hnA⟩
        show s.trace = tagged false (emittedOf s.phA) ++ tagged true (emittedOf (TPhase.closed em))
        rw [htr, hemB]
        rfl
      · right
        refine ⟨?_, fun hins => by simp [insideP] at hins⟩
        show s.trace = tagged true (emittedOf (TPhase.closed em)) ++ tagged false (emittedOf s.phA)
        rw [htr, hemB]
        rfl

/-- The lock invariant holds in every reachable state. -/
theorem lockInv_reachable (trA trB : List Event) (s : CState)
    (h : Relation.ReflTransGen CStep (initState trA trB) s) : LockInv trA trB s := by
  induction h with
  | refl => exact lockInv_init trA trB
  | tail _ hstep ih => exact lockInv_step trA trB _ _ hstep ih

/-- C10: for any two concurrent `card_session` invocations, each running as
a lock-guarded task (acquire, transport calls, release) under the
cooperative scheduler `CStep`, every complete run produces a transport trace
that is exactly one session followed by the other — never interleaved — for
any interleaving the scheduler chooses. -/
theorem c10_mutual_exclusion {α β : Type} (r1 r2 : Reader) (ck1 ck2 : List Byte)
    (fu1 fk1 fu2 fk2 : Option (List Byte)) (op1 : CardOp α) (op2 : CardOp β) (s : CState)
    (hreach : Relation.ReflTransGen CStep
      (initState (card_session r1 ck1 fu1 fk1 op1).2 (card_session r2 ck2 fu2 fk2 op2).2) s)
    (hA : finishedP s.phA) (hB : finishedP s.phB) :
    s.trace = tagged false (card_session r1 ck1 fu1 fk1 op1).2 ++
        tagged true (card_session r2 ck2 fu2 fk2 op2).2 ∨
    s.trace = tagged true (card_session r2 ck2 fu2 fk2 op2).2 ++
        tagged false (card_session r1 ck1 fu1 fk1 op1).2 := by
  obtain ⟨hcA, hcB, _, _, hdisj⟩ := lockInv_reachable _ _ s hreach
  cases hpa : s.phA with
  | start p =>
    rw [hpa] at hA
    exact absurd hA (by simp [finishedP])
  | running em p =>
    rw [hpa] at hA
    exact absurd hA (by simp [finishedP])
  | closed emA =>
    cases hpb : s.phB with
    | start p =>
      rw [hpb] at hB
      exact absurd hB (by simp [finishedP])
    | running em p =>
      rw [hpb] at hB
      exact absurd hB (by simp [finishedP])
    | closed emB =>
      rw [hpa] at hcA
      rw [hpb] at hcB
      simp only [phConsistent] at hcA hcB
      rw [hpa, hpb] at hdisj
      simp only [emittedOf] at hdisj
      rw [hcA, hcB] at hdisj
      rcases hdisj with ⟨htr, _⟩ | ⟨htr, _⟩
      · exact .inl htr
      · exact .inr htr

/-- Witness for `c10_mutual_exclusion`: a concrete complete run of two
sessions. -/
theorem c10_mutual_exclusion_witness :
    c10FinalState.trace =
      tagged false (card_session (allOkReader zeroStore) [] none none
          (fun _ _ => ((Except.ok ()), []))).2 ++
        tagged true (card_session (allOkReader zeroStore) [] none none
          (fun _ _ => ((Except.ok ()), []))).2 ∨
    c10FinalState.trace =
      tagged true (card_session (allOkReader zeroStore) [] none none
          (fun _ _ => ((Except.ok ()), []))).2 ++
        tagged false (card_session (allOkReader zeroStore) [] none none
          (fun _ _ => ((Except.ok ()), []))).2 := by
  have hreach : Relation.ReflTransGen CStep (initState [] []) c10FinalState :=
    Relation.ReflTransGen.trans
      (Relation.ReflTransGen.single (CStep.acquireA [] (initState [] []) rfl rfl))
      (Relation.ReflTransGen.trans
        (Relation.ReflTransGen.single (CStep.releaseA [] _ rfl))
        (Relation.ReflTransGen.trans
          (Relation.ReflTransGen.single (CStep.acquireB [] _ rfl rfl))
          (Relation.ReflTransGen.single (CStep.releaseB [] _ rfl))))
  exact c10_mutual_exclusion (allOkReader zeroStore) (allOkReader zeroStore) [] [] none none
    none none (fun _ _ => ((Except.ok ()), [])) (fun _ _ => ((Except.ok ()), []))
    c10FinalState hreach trivial trivial
